import Mathlib

/-
Verification of the procedural-world core of the `creature-simulation`
repository: the biome data model (`src/biome.rs`), the world generator
(`src/world.rs`) and the compressed/streaming layer (`src/optimization.rs`),
shallowly embedded in Lean.  Rust `f32` scalars are modelled as exact
rationals, machine integers as `Nat`/`Int` with explicit `% 2^w` where the
source wraps, and fallible indexing as `Option`.
-/

namespace CreatureSim

/-- Embedding of `pub const WORLD_SIZE: usize = 1000;` (`world.rs`). -/
def WORLD_SIZE : Nat := 1000

/-- Embedding of `pub const CHUNK_SIZE: usize = 32;` (`optimization.rs`, streaming chunks). -/
def CHUNK_SIZE : Nat := 32

/-- Embedding of `pub const RENDER_DISTANCE: f32 = 200.0;` (`optimization.rs`). -/
def RENDER_DISTANCE : Rat := 200

/-- Embedding of `enum BiomeType` (`biome.rs`): the 14 biome categories, in their
declaration order. -/
inductive BiomeType where
  | Ocean
  | Coastal
  | Desert
  | Savanna
  | Grasslands
  | Forest
  | TropicalRainforest
  | Mountain
  | Alpine
  | Tundra
  | Wetlands
  | Caves
  | Volcanic
  | Badlands
deriving DecidableEq, Repr

/-- Embedding of `enum ResourceType` (`biome.rs`). -/
inductive ResourceType where
  | Water
  | Wood
  | Stone
  | Fish
  | Berries
  | Herbs
  | Minerals
  | Salt
  | Ice
  | Mushrooms
  | Clay
  | Sulfur
deriving DecidableEq, Repr

/-- Embedding of `BiomeType::to_id` (`biome.rs`): the 4-bit id of each biome. -/
def BiomeType.to_id : BiomeType → Nat
  | .Ocean => 0
  | .Coastal => 1
  | .Desert => 2
  | .Savanna => 3
  | .Grasslands => 4
  | .Forest => 5
  | .TropicalRainforest => 6
  | .Mountain => 7
  | .Alpine => 8
  | .Tundra => 9
  | .Wetlands => 10
  | .Caves => 11
  | .Volcanic => 12
  | .Badlands => 13

/-- Embedding of `BiomeType::from_id` (`biome.rs`); an unknown id falls back to `Ocean`. -/
def BiomeType.from_id : Nat → BiomeType
  | 0 => .Ocean
  | 1 => .Coastal
  | 2 => .Desert
  | 3 => .Savanna
  | 4 => .Grasslands
  | 5 => .Forest
  | 6 => .TropicalRainforest
  | 7 => .Mountain
  | 8 => .Alpine
  | 9 => .Tundra
  | 10 => .Wetlands
  | 11 => .Caves
  | 12 => .Volcanic
  | 13 => .Badlands
  | _ => .Ocean

/-- Embedding of `BiomeType::get_resources` (`biome.rs`): each biome's fixed ordered
resource catalog. -/
def BiomeType.get_resources : BiomeType → List ResourceType
  | .Ocean => [.Water, .Fish, .Salt]
  | .Coastal => [.Water, .Fish, .Salt, .Clay]
  | .Desert => [.Stone, .Minerals, .Salt]
  | .Savanna => [.Herbs, .Stone]
  | .Grasslands => [.Herbs, .Berries]
  | .Forest => [.Wood, .Berries, .Herbs]
  | .TropicalRainforest => [.Wood, .Berries, .Water]
  | .Mountain => [.Stone, .Minerals, .Water]
  | .Alpine => [.Stone, .Ice, .Herbs]
  | .Tundra => [.Ice, .Fish]
  | .Wetlands => [.Water, .Clay, .Fish]
  | .Caves => [.Minerals, .Stone, .Mushrooms]
  | .Volcanic => [.Minerals, .Sulfur, .Stone]
  | .Badlands => [.Stone, .Minerals]

/-- Embedding of `struct Tile` (`world.rs`): the three `f32` scalar fields are modelled
as rationals. -/
structure Tile where
  biome : BiomeType
  elevation : Rat
  temperature : Rat
  moisture : Rat
  resources : List ResourceType
deriving DecidableEq, Repr

/-- Rust `f32::clamp(min, max)`: `min` if below, `max` if above, else the
value itself. -/
def rustClamp (v lo hi : Rat) : Rat :=
  if v < lo then lo else if v > hi then hi else v

/-- Embedding of `WorldGenerator::determine_biome_fast` (`world.rs`): the fixed-priority
biome decision procedure, a pure function of the three scalar fields. -/
def determine_biome_fast (elevation temperature moisture : Rat) : BiomeType :=
  if elevation < 0.3 then .Ocean
  else if elevation < 0.35 then .Coastal
  else if elevation > 0.8 then
    (if temperature < 0.3 then .Alpine
     else if temperature < 0.7 then .Mountain
     else .Volcanic)
  else if elevation > 0.9 ∨ temperature < 0.1 then .Tundra
  else if temperature > 0.7 ∧ moisture < 0.3 then .Desert
  else if temperature > 0.7 ∧ moisture < 0.6 then .Savanna
  else if temperature > 0.7 ∧ moisture ≥ 0.6 then .TropicalRainforest
  else if temperature > 0.3 ∧ temperature ≤ 0.7 ∧ moisture > 0.8 then .Wetlands
  else if temperature > 0.3 ∧ temperature ≤ 0.7 ∧ moisture > 0.4 then .Forest
  else if temperature > 0.3 ∧ temperature ≤ 0.7 ∧ moisture ≤ 0.4 then .Grasslands
  else if temperature ≤ 0.3 then .Tundra
  else if temperature > 0.8 ∧ moisture < 0.2 then .Badlands
  else .Grasslands

/-! ## World generation (`world.rs`)

The Perlin samplers come from the external `noise` crate; each is modelled
as an arbitrary function `Rat → Rat → Rat` of the scaled coordinates, so
everything proved below holds for every possible noise field. -/

/-- The octave loop inside `generate_world_with_progress`'s inline elevation
block (and `generate_elevation`): each iteration adds
`noise(x·frequency, y·frequency) · amplitude`, then halves the amplitude and
doubles the frequency. -/
def octaveSum (noise : Rat → Rat → Rat) (x y : Rat) : Nat → Rat → Rat → Rat
  | 0, _, _ => 0
  | n + 1, amplitude, frequency =>
      noise (x * frequency) (y * frequency) * amplitude +
        octaveSum noise x y n (amplitude * 0.5) (frequency * 2)

/-- The inline elevation computation of the parallel fast path
(`generate_world_with_progress`): 2 octaves, base frequency 0.01, then
`(elev + 1) / 2`. -/
def generate_elevation_fast (noise : Rat → Rat → Rat) (x y : Nat) : Rat :=
  (octaveSum noise x y 2 1 0.01 + 1) / 2

/-- The inline temperature computation: latitude gradient plus
`0.3`-weighted noise at base frequency 0.005, clamped to `[0,1]`. -/
def generate_temperature_fast (noise : Rat → Rat → Rat) (x y : Nat) : Rat :=
  rustClamp ((1 - (y : Rat) / (WORLD_SIZE : Rat)) +
    noise ((x : Rat) * 0.005) ((y : Rat) * 0.005) * 0.3) 0 1

/-- The inline moisture computation: single octave at base frequency 0.008,
mapped by `(v + 1) / 2`. -/
def generate_moisture_fast (noise : Rat → Rat → Rat) (x y : Nat) : Rat :=
  (noise ((x : Rat) * 0.008) ((y : Rat) * 0.008) + 1) / 2

/-- Embedding of `2^64`, the modulus of Rust `u64` wrapping arithmetic. -/
def U64 : Nat := 2 ^ 64

/-- The fixed 64-bit multiplicative hash of
`WorldGenerator::generate_resources_fast`:
`(seed as u64).wrapping_mul(M).wrapping_add((x as u64) << 16 | (y as u64)).wrapping_mul(M)`
with `M = 6364136223846793005`; `seed` is a `u32`. -/
def resource_hash (seed x y : Nat) : Nat :=
  ((seed % 2 ^ 32) * 6364136223846793005 % U64 +
      (((x % U64) <<< 16) % U64 ||| (y % U64))) % U64
    * 6364136223846793005 % U64

/-- Embedding of `WorldGenerator::generate_resources_fast` (`world.rs`): derive a count
in `[1,3]` from the hash, cap it at the catalog length, and take that many
entries from the front of the biome's catalog. -/
def generate_resources_fast (biome : BiomeType) (seed x y : Nat) : List ResourceType :=
  let hash := resource_hash seed x y
  let available := biome.get_resources
  if available.isEmpty then []
  else
    let resource_count := (hash >>> 16) % 3 + 1
    let resource_count := min resource_count available.length
    available.take resource_count

/-- The per-tile body of the parallel generation loop: elevation,
temperature, moisture, biome and resources for one coordinate, a pure
function of the noise fields, the seed and the coordinate. -/
def genTile (en tn mn : Rat → Rat → Rat) (seed x y : Nat) : Tile :=
  let elevation := generate_elevation_fast en x y
  let temperature := generate_temperature_fast tn x y
  let moisture := generate_moisture_fast mn x y
  let biome := determine_biome_fast elevation temperature moisture
  { biome := biome, elevation := elevation, temperature := temperature,
    moisture := moisture, resources := generate_resources_fast biome seed x y }

/-- Embedding of `let chunk_size = 64;` — the parallel sub-block side in
`generate_world_with_progress`. -/
def PAR_CHUNK : Nat := 64

/-- Embedding of `let chunks_per_side = (WORLD_SIZE + chunk_size - 1) / chunk_size;`. -/
def chunks_per_side : Nat := (WORLD_SIZE + PAR_CHUNK - 1) / PAR_CHUNK

/-- Embedding of `let total_chunks = chunks_per_side * chunks_per_side;`. -/
def total_chunks : Nat := chunks_per_side * chunks_per_side

/-- The tile list produced by one parallel sub-block of
`generate_world_with_progress`: coordinates
`[start_x, end_x) × [start_y, end_y)` with their generated tiles. -/
def chunkTiles (en tn mn : Rat → Rat → Rat) (seed chunk_idx : Nat) :
    List (Nat × Nat × Tile) :=
  let chunk_x := chunk_idx % chunks_per_side
  let chunk_y := chunk_idx / chunks_per_side
  let start_x := chunk_x * PAR_CHUNK
  let start_y := chunk_y * PAR_CHUNK
  let end_x := min (start_x + PAR_CHUNK) WORLD_SIZE
  let end_y := min (start_y + PAR_CHUNK) WORLD_SIZE
  (List.range' start_x (end_x - start_x)).flatMap (fun x =>
    (List.range' start_y (end_y - start_y)).map (fun y =>
      (x, y, genTile en tn mn seed x y)))

/-- Embedding of `tiles[x][y] = tile;` — one write of the merge loop, on a grid modelled
as a function. -/
def gridWrite (g : Nat → Nat → Tile) (p : Nat × Nat × Tile) : Nat → Nat → Tile :=
  fun a b => if a = p.1 ∧ b = p.2.1 then p.2.2 else g a b

/-- The pre-allocated default tile of `generate_world_with_progress`. -/
def initTile : Tile :=
  { biome := .Ocean, elevation := 0, temperature := 0, moisture := 0, resources := [] }

/-- The merge phase of `generate_world_with_progress`, with the sub-block
results applied in an arbitrary order `order` (the real code receives them
from a parallel worker pool): every sub-block's tiles are written into the
pre-allocated grid. -/
def assembleWorld (en tn mn : Rat → Rat → Rat) (seed : Nat) (order : List Nat) :
    Nat → Nat → Tile :=
  order.foldl (fun g idx => (chunkTiles en tn mn seed idx).foldl gridWrite g)
    (fun _ _ => initTile)

/-! ## Compressed world view (`optimization.rs`) -/

/-- Embedding of `struct CompressedWorldData` (`optimization.rs`). -/
structure CompressedWorldData where
  biomes : List Nat
  elevation_samples : List Rat
  temperature_samples : List Rat
  moisture_samples : List Rat
  sample_resolution : Nat

/-- One packed byte of the biome array:
`let packed = (biome2 << 4) | biome1;` where `biome1 = tiles[x][y]` and
`biome2 = tiles[x][y+1]` (or 0 past the edge); `u8` arithmetic. -/
def packByte (tiles : Nat → Nat → Tile) (x y : Nat) : Nat :=
  let biome1 := (tiles x y).biome.to_id
  let biome2 := if y + 1 < WORLD_SIZE then (tiles x (y + 1)).biome.to_id else 0
  ((biome2 <<< 4) % 256) ||| biome1

/-- The sparse sampling loops of `CompressedWorldData::from_world_map`:
`for x in (0..WORLD_SIZE).step_by(8) { for y in (0..WORLD_SIZE).step_by(8)`,
pushing one field of `tiles[x][y]` per iteration. -/
def sampleGrid (field : Tile → Rat) (tiles : Nat → Nat → Tile) : List Rat :=
  (List.range' 0 ((WORLD_SIZE + 7) / 8) 8).flatMap (fun x =>
    (List.range' 0 ((WORLD_SIZE + 7) / 8) 8).map (fun y => field (tiles x y)))

/-- The packed biome byte list built by `from_world_map`'s first loop nest:
`for x in 0..WORLD_SIZE { for y in (0..WORLD_SIZE).step_by(2) { ... push }`. -/
def biomesList (tiles : Nat → Nat → Tile) : List Nat :=
  (List.range WORLD_SIZE).flatMap (fun x =>
    (List.range' 0 ((WORLD_SIZE + 1) / 2) 2).map (fun y => packByte tiles x y))

/-- Embedding of `CompressedWorldData::from_world_map` (`optimization.rs`): biome nibbles
packed two per byte, plus the three sparsely sampled scalar fields at
stride `sample_resolution = 8`. -/
def from_world_map (tiles : Nat → Nat → Tile) : CompressedWorldData :=
  { biomes := biomesList tiles,
    elevation_samples := sampleGrid (fun t => t.elevation) tiles,
    temperature_samples := sampleGrid (fun t => t.temperature) tiles,
    moisture_samples := sampleGrid (fun t => t.moisture) tiles,
    sample_resolution := 8 }

/-- Embedding of `CompressedWorldData::get_biome` (`optimization.rs`).  The early
`return 0` on an oversized byte index is kept; the in-bounds array read
`self.biomes[byte_index]` is modelled fallibly with `Option`, so a `none`
would correspond to a Rust index panic. -/
def CompressedWorldData.get_biome? (d : CompressedWorldData) (x y : Nat) : Option Nat :=
  let index := x * WORLD_SIZE + y
  let byte_index := index / 2
  if d.biomes.length ≤ byte_index then some 0
  else
    d.biomes[byte_index]?.map (fun packed_byte =>
      if index % 2 = 1 then (packed_byte >>> 4) &&& 15 else packed_byte &&& 15)

/-- Embedding of `CompressedWorldData::get_elevation` (`optimization.rs`):
`(x / resolution).min(len - 1)`, same for `y`, then
`samples.get(sample_x * sample_y).copied().unwrap_or(0.0)`. -/
def CompressedWorldData.get_elevation (d : CompressedWorldData) (x y : Nat) : Rat :=
  let sample_x := min (x / d.sample_resolution) (d.elevation_samples.length - 1)
  let sample_y := min (y / d.sample_resolution) (d.elevation_samples.length - 1)
  (d.elevation_samples[sample_x * sample_y]?).getD 0

/-- Indexing `world_map.tiles[x][y]` on the `Vec<Vec<Tile>>` grid; a Rust
bounds panic is modelled as `none`. -/
def tilesGet? (tiles : List (List Tile)) (x y : Nat) : Option Tile :=
  tiles[x]?.bind (fun row => row[y]?)

/-! ## Chunk streaming utilities (`optimization.rs`) -/

/-- Embedding of `let tile_size = 4.0; // From render.rs` in `calculate_visible_chunks`. -/
def TILE_SIZE : Rat := 4

/-- Rust's `f32 as i32` cast: truncation toward zero. -/
def ratTrunc (q : Rat) : Int := if 0 ≤ q then ⌊q⌋ else ⌈q⌉

/-- The inclusive Rust range `lo..=hi` over `i32`, as the list of its
values in order. -/
def intRangeIncl (lo hi : Int) : List Int :=
  (List.range (hi + 1 - lo).toNat).map (fun i : Nat => lo + (i : Int))

/-- Embedding of `calculate_visible_chunks` (`optimization.rs`): viewer chunk from the
camera position, `render_chunks = (RENDER_DISTANCE / (CHUNK_SIZE * tile_size)) as i32 + 1`,
then every chunk coordinate of the surrounding square, with no intersection
against world bounds. -/
def calculate_visible_chunks (px py : Rat) : List (Int × Int) :=
  let chunk_x := ratTrunc (px / ((CHUNK_SIZE : Rat) * TILE_SIZE))
  let chunk_y := ratTrunc (py / ((CHUNK_SIZE : Rat) * TILE_SIZE))
  let render_chunks := ratTrunc (RENDER_DISTANCE / ((CHUNK_SIZE : Rat) * TILE_SIZE)) + 1
  (intRangeIncl (chunk_x - render_chunks) (chunk_x + render_chunks)).flatMap (fun x =>
    (intRangeIncl (chunk_y - render_chunks) (chunk_y + render_chunks)).map (fun y => (x, y)))

/-- Transcription of the SPEC's description of the streaming target set
(§4.6/§8), for comparison with `calculate_visible_chunks`: "all coordinates
within `ceil(radius / chunk_world_size) + 1` rings of the viewer's chunk
(inclusive), where chunk_world_size = chunk tile-count × tile world-size",
"intersected with valid world chunk coordinates". -/
def specVisibleChunkTarget (px py : Rat) (c : Int × Int) : Prop :=
  |c.1 - ratTrunc (px / ((CHUNK_SIZE : Rat) * TILE_SIZE))| ≤
      ⌈RENDER_DISTANCE / ((CHUNK_SIZE : Rat) * TILE_SIZE)⌉ + 1 ∧
  |c.2 - ratTrunc (py / ((CHUNK_SIZE : Rat) * TILE_SIZE))| ≤
      ⌈RENDER_DISTANCE / ((CHUNK_SIZE : Rat) * TILE_SIZE)⌉ + 1 ∧
  c.1 * (CHUNK_SIZE : Int) < (WORLD_SIZE : Int) ∧ 0 < (c.1 + 1) * (CHUNK_SIZE : Int) ∧
  c.2 * (CHUNK_SIZE : Int) < (WORLD_SIZE : Int) ∧ 0 < (c.2 + 1) * (CHUNK_SIZE : Int)

/-- Embedding of `chunk_to_world_bounds` (`optimization.rs`): bounds in `i32`, clamped
to `[0, WORLD_SIZE]` and converted to `usize`; result
`(start_x, start_y, end_x, end_y)`. -/
def chunk_to_world_bounds (chunk_x chunk_y : Int) : Nat × Nat × Nat × Nat :=
  let start_x_i32 := chunk_x * (CHUNK_SIZE : Int)
  let start_y_i32 := chunk_y * (CHUNK_SIZE : Int)
  let end_x_i32 := (chunk_x + 1) * (CHUNK_SIZE : Int)
  let end_y_i32 := (chunk_y + 1) * (CHUNK_SIZE : Int)
  ((min (max start_x_i32 0) (WORLD_SIZE : Int)).toNat,
   (min (max start_y_i32 0) (WORLD_SIZE : Int)).toNat,
   (min (max end_x_i32 0) (WORLD_SIZE : Int)).toNat,
   (min (max end_y_i32 0) (WORLD_SIZE : Int)).toNat)

/-- Tile `(x, y)` lies in the half-open tile range of chunk `c` as returned
by `chunk_to_world_bounds`. -/
def inChunkBounds (c : Int × Int) (x y : Nat) : Prop :=
  let b := chunk_to_world_bounds c.1 c.2
  b.1 ≤ x ∧ x < b.2.2.1 ∧ b.2.1 ≤ y ∧ y < b.2.2.2

/-- An all-ocean world map (every tile is the pre-allocation default), used
as a concrete input for evaluations. -/
def oceanTiles : Nat → Nat → Tile := fun _ _ => initTile

/-- A world map whose only nonzero elevation sits at tile `(8, 0)` — a
sampled grid point of the stride-8 sparse sampling. -/
def tilesC6 : Nat → Nat → Tile := fun x y =>
  { biome := .Ocean, elevation := if x = 8 ∧ y = 0 then 1 else 0,
    temperature := 0, moisture := 0, resources := [] }

/-! ## Helper lemmas -/

/-- Indexing a flattened list of uniform-length rows: position `q·L + r`
reads row `q` at offset `r`. -/
lemma flatten_getElem_uniform {α : Type} (L : Nat) :
    ∀ (ls : List (List α)) (q r : Nat), (∀ l ∈ ls, l.length = L) →
      q < ls.length → r < L →
      ls.flatten[q * L + r]? = ls[q]?.bind (fun l => l[r]?) := by
  intro ls
  induction ls with
  | nil => intro q r _ hq _; simp at hq
  | cons hd tl ih =>
    intro q r hlen hq hr
    have hhd : hd.length = L := hlen hd (List.mem_cons_self hd tl)
    cases q with
    | zero =>
      simp only [List.flatten_cons, Nat.zero_mul, Nat.zero_add]
      rw [List.getElem?_append_left (by omega)]
      simp
    | succ q' =>
      simp only [List.flatten_cons]
      rw [List.getElem?_append_right (by nlinarith [Nat.succ_mul q' L])]
      have harith : q'.succ * L + r - hd.length = q' * L + r := by
        rw [hhd, Nat.succ_mul]; omega
      rw [harith]
      rw [ih q' r (fun l hl => hlen l (List.mem_cons_of_mem hd hl)) (by simpa using hq) hr]
      simp

/-- Length of a flatMap whose rows all have length `L`. -/
lemma flatMap_length_uniform {α β : Type} (f : α → List β) (L : Nat) (l : List α)
    (h : ∀ x ∈ l, (f x).length = L) : (l.flatMap f).length = l.length * L := by
  rw [List.length_flatMap]
  have hrep : List.map (List.length ∘ f) l = List.replicate l.length L := by
    induction l with
    | nil => rfl
    | cons hd tl ih =>
      simp only [List.map_cons, List.length_cons, List.replicate_succ]
      rw [ih (fun x hx => h x (List.mem_cons_of_mem hd hx))]
      simp [h hd (List.mem_cons_self hd tl)]
  rw [hrep, List.sum_replicate, smul_eq_mul]

lemma rustClamp_bounds (v lo hi : Rat) (h : lo ≤ hi) :
    lo ≤ rustClamp v lo hi ∧ rustClamp v lo hi ≤ hi := by
  unfold rustClamp
  split_ifs <;> constructor <;> linarith

lemma from_id_to_id (b : BiomeType) : BiomeType.from_id b.to_id = b := by
  cases b <;> rfl

lemma get_resources_ne_nil (b : BiomeType) : b.get_resources ≠ [] := by
  cases b <;> simp [BiomeType.get_resources]

lemma get_resources_length_pos (b : BiomeType) : 1 ≤ b.get_resources.length := by
  cases b <;> simp [BiomeType.get_resources]

/-- C5: for elevation in `(0.8, 0.9]` and temperature below `0.1`, the
classifier resolves the tile at the high-elevation step and returns
`Alpine`; the later Tundra check is never reached. -/
theorem alpine_precedence (e t m : Rat) (h1 : 0.8 < e) (h2 : e ≤ 0.9) (h3 : t < 0.1) :
    determine_biome_fast e t m = BiomeType.Alpine := by
  unfold determine_biome_fast
  split_ifs with ha hb hc hd <;> first | rfl | linarith

theorem alpine_precedence_witness :
    determine_biome_fast 0.85 0.05 0.5 = BiomeType.Alpine :=
  alpine_precedence 0.85 0.05 0.5 (by norm_num) (by norm_num) (by norm_num)

/-- C7: the resource set of a tile is a prefix of the biome's fixed ordered
catalog, its length lies in `[1, min 3 (catalog size)]`, and every element
belongs to the catalog.  (Determinism in `(seed, x, y, biome)` is
definitional: `generate_resources_fast` is a pure function with no stateful
generator.) -/
theorem resource_selection_sound (biome : BiomeType) (seed x y : Nat) :
    (∃ rest, generate_resources_fast biome seed x y ++ rest = biome.get_resources) ∧
    1 ≤ (generate_resources_fast biome seed x y).length ∧
    (generate_resources_fast biome seed x y).length ≤ min 3 biome.get_resources.length ∧
    ∀ r ∈ generate_resources_fast biome seed x y, r ∈ biome.get_resources := by
  have hlen := get_resources_length_pos biome
  simp only [generate_resources_fast]
  rw [if_neg (by simpa [List.isEmpty_iff] using get_resources_ne_nil biome)]
  refine ⟨⟨biome.get_resources.drop _, List.take_append_drop _ _⟩, ?_, ?_, ?_⟩
  · rw [List.length_take]
    have h1 : 1 ≤ (resource_hash seed x y >>> 16) % 3 + 1 := by omega
    omega
  · rw [List.length_take]
    have h3 : (resource_hash seed x y >>> 16) % 3 + 1 ≤ 3 := by omega
    omega
  · intro r hr
    exact List.take_subset _ _ hr

/-- C10: over the whole `[0,1]^3` input cube the classifier never returns
`Badlands` (its guard is strictly covered by the earlier Desert branch) nor
`Caves` (no branch yields it), and every one of the other 12 biomes is
attained by some input in the cube. -/
theorem biome_classifier_range :
    (∀ e t m : Rat, 0 ≤ e → e ≤ 1 → 0 ≤ t → t ≤ 1 → 0 ≤ m → m ≤ 1 →
      determine_biome_fast e t m ≠ BiomeType.Badlands ∧
      determine_biome_fast e t m ≠ BiomeType.Caves) ∧
    (∀ b : BiomeType, b ≠ BiomeType.Badlands → b ≠ BiomeType.Caves →
      ∃ e t m : Rat, 0 ≤ e ∧ e ≤ 1 ∧ 0 ≤ t ∧ t ≤ 1 ∧ 0 ≤ m ∧ m ≤ 1 ∧
        determine_biome_fast e t m = b) := by
  constructor
  · intro e t m _ _ _ _ _ _
    unfold determine_biome_fast
    by_cases h1 : e < 0.3
    · rw [if_pos h1]; decide
    rw [if_neg h1]
    by_cases h2 : e < 0.35
    · rw [if_pos h2]; decide
    rw [if_neg h2]
    by_cases h3 : e > 0.8
    · rw [if_pos h3]
      by_cases h3a : t < 0.3
      · rw [if_pos h3a]; decide
      rw [if_neg h3a]
      by_cases h3b : t < 0.7
      · rw [if_pos h3b]; decide
      rw [if_neg h3b]; decide
    rw [if_neg h3]
    by_cases h4 : e > 0.9 ∨ t < 0.1
    · rw [if_pos h4]; decide
    rw [if_neg h4]
    by_cases h5 : t > 0.7 ∧ m < 0.3
    · rw [if_pos h5]; decide
    rw [if_neg h5]
    by_cases h6 : t > 0.7 ∧ m < 0.6
    · rw [if_pos h6]; decide
    rw [if_neg h6]
    by_cases h7 : t > 0.7 ∧ m ≥ 0.6
    · rw [if_pos h7]; decide
    rw [if_neg h7]
    by_cases h8 : t > 0.3 ∧ t ≤ 0.7 ∧ m > 0.8
    · rw [if_pos h8]; decide
    rw [if_neg h8]
    by_cases h9 : t > 0.3 ∧ t ≤ 0.7 ∧ m > 0.4
    · rw [if_pos h9]; decide
    rw [if_neg h9]
    by_cases h10 : t > 0.3 ∧ t ≤ 0.7 ∧ m ≤ 0.4
    · rw [if_pos h10]; decide
    rw [if_neg h10]
    by_cases h11 : t ≤ 0.3
    · rw [if_pos h11]; decide
    rw [if_neg h11]
    by_cases h12 : t > 0.8 ∧ m < 0.2
    · exact absurd ⟨by linarith [h12.1], by linarith [h12.2]⟩ h5
    rw [if_neg h12]; decide
  · intro b hbad hcaves
    cases b with
    | Ocean =>
      exact ⟨0, 0, 0, by norm_num, by norm_num, by norm_num, by norm_num, by norm_num,
        by norm_num, by unfold determine_biome_fast; norm_num⟩
    | Coastal =>
      exact ⟨0.32, 0, 0, by norm_num, by norm_num, by norm_num, by norm_num, by norm_num,
        by norm_num, by unfold determine_biome_fast; norm_num⟩
    | Desert =>
      exact ⟨0.5, 0.8, 0.1, by norm_num, by norm_num, by norm_num, by norm_num, by norm_num,
        by norm_num, by unfold determine_biome_fast; norm_num⟩
    | Savanna =>
      exact ⟨0.5, 0.8, 0.5, by norm_num, by norm_num, by norm_num, by norm_num, by norm_num,
        by norm_num, by unfold determine_biome_fast; norm_num⟩
    | Grasslands =>
      exact ⟨0.5, 0.5, 0.2, by norm_num, by norm_num, by norm_num, by norm_num, by norm_num,
        by norm_num, by unfold determine_biome_fast; norm_num⟩
    | Forest =>
      exact ⟨0.5, 0.5, 0.5, by norm_num, by norm_num, by norm_num, by norm_num, by norm_num,
        by norm_num, by unfold determine_biome_fast; norm_num⟩
    | TropicalRainforest =>
      exact ⟨0.5, 0.8, 0.7, by norm_num, by norm_num, by norm_num, by norm_num, by norm_num,
        by norm_num, by unfold determine_biome_fast; norm_num⟩
    | Mountain =>
      exact ⟨0.85, 0.5, 0, by norm_num, by norm_num, by norm_num, by norm_num, by norm_num,
        by norm_num, by unfold determine_biome_fast; norm_num⟩
    | Alpine =>
      exact ⟨0.85, 0.1, 0, by norm_num, by norm_num, by norm_num, by norm_num, by norm_num,
        by norm_num, by unfold determine_biome_fast; norm_num⟩
    | Tundra =>
      exact ⟨0.5, 0.05, 0.5, by norm_num, by norm_num, by norm_num, by norm_num, by norm_num,
        by norm_num, by unfold determine_biome_fast; norm_num⟩
    | Wetlands =>
      exact ⟨0.5, 0.5, 0.9, by norm_num, by norm_num, by norm_num, by norm_num, by norm_num,
        by norm_num, by unfold determine_biome_fast; norm_num⟩
    | Volcanic =>
      exact ⟨0.85, 0.8, 0, by norm_num, by norm_num, by norm_num, by norm_num, by norm_num,
        by norm_num, by unfold determine_biome_fast; norm_num⟩
    | Caves => exact absurd rfl hcaves
    | Badlands => exact absurd rfl hbad

theorem biome_classifier_range_witness :
    determine_biome_fast 0.5 0.9 0.1 ≠ BiomeType.Badlands :=
  (biome_classifier_range.1 0.5 0.9 0.1 (by norm_num) (by norm_num) (by norm_num)
    (by norm_num) (by norm_num) (by norm_num)).1

/-- Two-octave expansion of the fast-path fractal sum: amplitudes `1` and
`0.5`, frequencies `0.01` and `0.02`. -/
lemma octaveSum_two (noise : Rat → Rat → Rat) (x y : Rat) :
    octaveSum noise x y 2 1 0.01 =
      noise (x * 0.01) (y * 0.01) * 1 +
        (noise (x * (0.01 * 2)) (y * (0.01 * 2)) * (1 * 0.5) + 0) := rfl

/-- C2 (corrected): the claimed `[0,1]` range fails for elevation.  The
parallel fast path sums 2 octaves with amplitudes `1` and `0.5`, so the raw
sum ranges over `[-1.5, 1.5]` and `(sum + 1)/2` over `[-1/4, 5/4]`; with
every noise evaluation pinned to `1` — allowed by the claim's `[-1,1]`
hypothesis — the generated elevation is `5/4 > 1`. -/
theorem elevation_exceeds_unit_interval :
    ¬ (∀ en tn mn : Rat → Rat → Rat,
        (∀ a b, -1 ≤ en a b ∧ en a b ≤ 1) →
        (∀ a b, -1 ≤ tn a b ∧ tn a b ≤ 1) →
        (∀ a b, -1 ≤ mn a b ∧ mn a b ≤ 1) →
        ∀ x y : Nat,
          (0 ≤ generate_elevation_fast en x y ∧ generate_elevation_fast en x y ≤ 1) ∧
          (0 ≤ generate_temperature_fast tn x y ∧ generate_temperature_fast tn x y ≤ 1) ∧
          (0 ≤ generate_moisture_fast mn x y ∧ generate_moisture_fast mn x y ≤ 1)) := by
  intro h
  have hb : ∀ a b : Rat, -1 ≤ (1 : Rat) ∧ (1 : Rat) ≤ 1 := fun _ _ => by norm_num
  have hle := (h (fun _ _ => 1) (fun _ _ => 1) (fun _ _ => 1) hb hb hb 0 0).1.2
  have he : generate_elevation_fast (fun _ _ => 1) 0 0 =
      ((1 : Rat) * 1 + ((1 : Rat) * (1 * 0.5) + 0) + 1) / 2 := rfl
  rw [he] at hle
  norm_num at hle

/-- C2 (amended): under the hypothesis that every Perlin evaluation lies in
`[-1,1]`, temperature and moisture lie in `[0,1]`, while the fast-path
elevation lies in `[-1/4, 5/4]` (the 2-octave amplitude sum is `1.5`, and
the `(e+1)/2` normalization maps `[-1.5,1.5]` onto that interval). -/
theorem scalar_field_ranges (en tn mn : Rat → Rat → Rat)
    (hen : ∀ a b, -1 ≤ en a b ∧ en a b ≤ 1)
    (_htn : ∀ a b, -1 ≤ tn a b ∧ tn a b ≤ 1)
    (hmn : ∀ a b, -1 ≤ mn a b ∧ mn a b ≤ 1) (x y : Nat) :
    (0 ≤ generate_temperature_fast tn x y ∧ generate_temperature_fast tn x y ≤ 1) ∧
    (0 ≤ generate_moisture_fast mn x y ∧ generate_moisture_fast mn x y ≤ 1) ∧
    (-(1/4) ≤ generate_elevation_fast en x y ∧ generate_elevation_fast en x y ≤ 5/4) := by
  refine ⟨?_, ?_, ?_⟩
  · exact rustClamp_bounds _ 0 1 (by norm_num)
  · have := hmn ((x : Rat) * 0.008) ((y : Rat) * 0.008)
    unfold generate_moisture_fast
    constructor <;> [linarith [this.1]; linarith [this.2]]
  · have h1 := hen ((x : Rat) * 0.01) ((y : Rat) * 0.01)
    have h2 := hen ((x : Rat) * (0.01 * 2)) ((y : Rat) * (0.01 * 2))
    unfold generate_elevation_fast
    rw [octaveSum_two]
    constructor <;> [nlinarith [h1.1, h2.1]; nlinarith [h1.2, h2.2]]

theorem scalar_field_ranges_witness :
    (0 ≤ generate_temperature_fast (fun _ _ => 0) 0 0 ∧
        generate_temperature_fast (fun _ _ => 0) 0 0 ≤ 1) ∧
    (0 ≤ generate_moisture_fast (fun _ _ => 0) 0 0 ∧
        generate_moisture_fast (fun _ _ => 0) 0 0 ≤ 1) ∧
    (-(1/4) ≤ generate_elevation_fast (fun _ _ => 0) 0 0 ∧
        generate_elevation_fast (fun _ _ => 0) 0 0 ≤ 5/4) :=
  scalar_field_ranges (fun _ _ => 0) (fun _ _ => 0) (fun _ _ => 0)
    (fun _ _ => by norm_num) (fun _ _ => by norm_num) (fun _ _ => by norm_num) 0 0

/-- A chunk coordinate whose tile range misses the world entirely gets a
degenerate (empty) clamped range on the out-of-world axis. -/
lemma chunk_bounds_outside_empty (cx cy : Int)
    (h : (cx + 1) * (CHUNK_SIZE : Int) ≤ 0 ∨ (WORLD_SIZE : Int) ≤ cx * (CHUNK_SIZE : Int) ∨
      (cy + 1) * (CHUNK_SIZE : Int) ≤ 0 ∨ (WORLD_SIZE : Int) ≤ cy * (CHUNK_SIZE : Int)) :
    (chunk_to_world_bounds cx cy).1 = (chunk_to_world_bounds cx cy).2.2.1 ∨
      (chunk_to_world_bounds cx cy).2.1 = (chunk_to_world_bounds cx cy).2.2.2 := by
  rw [CHUNK_SIZE, WORLD_SIZE] at h
  simp only [chunk_to_world_bounds, CHUNK_SIZE, WORLD_SIZE]
  omega

/-- C9: chunk tiling — every in-range tile lies in the bounds of exactly
one chunk coordinate (no gaps, no overlaps), and a chunk whose tile range
is entirely outside the world yields an empty range on the out-of-world
axis. -/
theorem chunk_tiling_exact :
    (∀ x y : Nat, x < WORLD_SIZE → y < WORLD_SIZE →
      ∃! c : Int × Int, inChunkBounds c x y) ∧
    (∀ cx cy : Int,
      ((cx + 1) * (CHUNK_SIZE : Int) ≤ 0 ∨ (WORLD_SIZE : Int) ≤ cx * (CHUNK_SIZE : Int) ∨
        (cy + 1) * (CHUNK_SIZE : Int) ≤ 0 ∨ (WORLD_SIZE : Int) ≤ cy * (CHUNK_SIZE : Int)) →
      ((chunk_to_world_bounds cx cy).1 = (chunk_to_world_bounds cx cy).2.2.1 ∨
        (chunk_to_world_bounds cx cy).2.1 = (chunk_to_world_bounds cx cy).2.2.2)) := by
  constructor
  · intro x y hx hy
    rw [WORLD_SIZE] at hx hy
    refine ⟨((x : Int) / 32, (y : Int) / 32), ?_, ?_⟩
    · simp only [inChunkBounds, chunk_to_world_bounds, CHUNK_SIZE, WORLD_SIZE]
      omega
    · rintro ⟨c1, c2⟩ hc
      simp only [inChunkBounds, chunk_to_world_bounds, CHUNK_SIZE, WORLD_SIZE] at hc
      rw [Prod.mk.injEq]
      constructor <;> omega
  · exact chunk_bounds_outside_empty

theorem chunk_tiling_exact_witness :
    (∃! c : Int × Int, inChunkBounds c 5 7) ∧
    ((chunk_to_world_bounds 40 0).1 = (chunk_to_world_bounds 40 0).2.2.1 ∨
      (chunk_to_world_bounds 40 0).2.1 = (chunk_to_world_bounds 40 0).2.2.2) :=
  ⟨chunk_tiling_exact.1 5 7 (by decide) (by decide),
   chunk_tiling_exact.2 40 0 (by decide)⟩

lemma mem_intRangeIncl (lo hi z : Int) : z ∈ intRangeIncl lo hi ↔ lo ≤ z ∧ z ≤ hi := by
  unfold intRangeIncl
  rw [List.mem_map]
  constructor
  · rintro ⟨a, ha, rfl⟩
    rw [List.mem_range] at ha
    omega
  · intro h
    refine ⟨(z - lo).toNat, ?_, ?_⟩
    · rw [List.mem_range]
      omega
    · omega

lemma mem_calculate_visible_chunks (px py : Rat) (c : Int × Int) :
    c ∈ calculate_visible_chunks px py ↔
      (ratTrunc (px / ((CHUNK_SIZE : Rat) * TILE_SIZE)) -
          (ratTrunc (RENDER_DISTANCE / ((CHUNK_SIZE : Rat) * TILE_SIZE)) + 1) ≤ c.1 ∧
        c.1 ≤ ratTrunc (px / ((CHUNK_SIZE : Rat) * TILE_SIZE)) +
          (ratTrunc (RENDER_DISTANCE / ((CHUNK_SIZE : Rat) * TILE_SIZE)) + 1) ∧
        ratTrunc (py / ((CHUNK_SIZE : Rat) * TILE_SIZE)) -
          (ratTrunc (RENDER_DISTANCE / ((CHUNK_SIZE : Rat) * TILE_SIZE)) + 1) ≤ c.2 ∧
        c.2 ≤ ratTrunc (py / ((CHUNK_SIZE : Rat) * TILE_SIZE)) +
          (ratTrunc (RENDER_DISTANCE / ((CHUNK_SIZE : Rat) * TILE_SIZE)) + 1)) := by
  obtain ⟨c1, c2⟩ := c
  unfold calculate_visible_chunks
  simp only [List.mem_flatMap, List.mem_map, Prod.mk.injEq]
  constructor
  · rintro ⟨a, ha, b, hb, rfl, rfl⟩
    rw [mem_intRangeIncl] at ha hb
    exact ⟨ha.1, ha.2, hb.1, hb.2⟩
  · rintro ⟨h1, h2, h3, h4⟩
    exact ⟨c1, (mem_intRangeIncl _ _ _).2 ⟨h1, h2⟩, c2,
      (mem_intRangeIncl _ _ _).2 ⟨h3, h4⟩, rfl, rfl⟩

lemma ratTrunc_zero_div : ratTrunc (0 / ((CHUNK_SIZE : Rat) * TILE_SIZE)) = 0 := by
  norm_num [ratTrunc]

lemma ratTrunc_render : ratTrunc (RENDER_DISTANCE / ((CHUNK_SIZE : Rat) * TILE_SIZE)) = 1 := by
  rw [RENDER_DISTANCE, TILE_SIZE, CHUNK_SIZE]
  norm_num [ratTrunc]

lemma ceil_render : ⌈RENDER_DISTANCE / ((CHUNK_SIZE : Rat) * TILE_SIZE)⌉ = 2 := by
  rw [RENDER_DISTANCE, TILE_SIZE, CHUNK_SIZE]
  rw [Int.ceil_eq_iff]
  norm_num

/-- C4 (counterexample): at the world origin with the fixed constants
(R = 200, C = 32, tile size 4) the spec's target set — `ceil(200/128)+1 = 3`
rings intersected with valid world chunks — contains `(3,0)`, which the code
does not produce (it uses `trunc(200/128)+1 = 2` rings); conversely the code
produces `(-1,0)`, which is not a valid world chunk coordinate. -/
theorem visible_chunks_spec_mismatch :
    specVisibleChunkTarget 0 0 (3, 0) ∧
    (3, 0) ∉ calculate_visible_chunks 0 0 ∧
    (-1, 0) ∈ calculate_visible_chunks 0 0 ∧
    ¬ specVisibleChunkTarget 0 0 (-1, 0) := by
  refine ⟨?_, ?_, ?_, ?_⟩
  · unfold specVisibleChunkTarget
    rw [ratTrunc_zero_div, ceil_render]
    simp only [CHUNK_SIZE, WORLD_SIZE]
    norm_num
  · rw [mem_calculate_visible_chunks, ratTrunc_zero_div, ratTrunc_render]
    omega
  · rw [mem_calculate_visible_chunks, ratTrunc_zero_div, ratTrunc_render]
    omega
  · unfold specVisibleChunkTarget
    rw [ratTrunc_zero_div, ceil_render]
    simp only [CHUNK_SIZE, WORLD_SIZE]
    norm_num

/-- C4 (amended): the computed visible-chunk list consists of exactly the
chunk coordinates within `trunc(RENDER_DISTANCE / (CHUNK_SIZE·tile_size)) + 1`
Chebyshev rings of the viewer's (truncated) chunk — floor-truncation, not
`ceil`, and with no intersection against valid world chunk coordinates. -/
theorem visible_chunks_characterization (px py : Rat) (c : Int × Int) :
    c ∈ calculate_visible_chunks px py ↔
      |c.1 - ratTrunc (px / ((CHUNK_SIZE : Rat) * TILE_SIZE))| ≤
          ratTrunc (RENDER_DISTANCE / ((CHUNK_SIZE : Rat) * TILE_SIZE)) + 1 ∧
      |c.2 - ratTrunc (py / ((CHUNK_SIZE : Rat) * TILE_SIZE))| ≤
          ratTrunc (RENDER_DISTANCE / ((CHUNK_SIZE : Rat) * TILE_SIZE)) + 1 := by
  rw [mem_calculate_visible_chunks, abs_le, abs_le]
  omega

/-! ## Nibble packing lemmas -/

lemma nibble_lo (b1 b2 : BiomeType) :
    (((b2.to_id <<< 4) % 256) ||| b1.to_id) &&& 15 = b1.to_id := by
  cases b1 <;> cases b2 <;> decide

lemma nibble_hi (b1 b2 : BiomeType) :
    ((((b2.to_id <<< 4) % 256) ||| b1.to_id) >>> 4) &&& 15 = b2.to_id := by
  cases b1 <;> cases b2 <;> decide

set_option maxRecDepth 8000 in
lemma biomes_def (tiles : Nat → Nat → Tile) :
    (from_world_map tiles).biomes = (List.range WORLD_SIZE).flatMap (fun x =>
      (List.range' 0 ((WORLD_SIZE + 1) / 2) 2).map (fun y => packByte tiles x y)) := by
  have h : (from_world_map tiles).biomes = biomesList tiles := by
    unfold from_world_map
    rfl
  rw [h, biomesList]

lemma biomes_length (tiles : Nat → Nat → Tile) :
    (from_world_map tiles).biomes.length = WORLD_SIZE * ((WORLD_SIZE + 1) / 2) := by
  have h := flatMap_length_uniform
    (fun x => (List.range' 0 ((WORLD_SIZE + 1) / 2) 2).map (fun y => packByte tiles x y))
    ((WORLD_SIZE + 1) / 2) (List.range WORLD_SIZE)
    (fun a _ => by rw [List.length_map, List.length_range'])
  rw [biomes_def, h, List.length_range]

lemma biomes_getElem (tiles : Nat → Nat → Tile) (x r : Nat) (hx : x < WORLD_SIZE)
    (hr : r < (WORLD_SIZE + 1) / 2) :
    (from_world_map tiles).biomes[x * ((WORLD_SIZE + 1) / 2) + r]? =
      some (packByte tiles x (2 * r)) := by
  rw [biomes_def]
  rw [List.flatMap_def]
  rw [flatten_getElem_uniform ((WORLD_SIZE + 1) / 2) _ x r
    (fun l hl => by
      obtain ⟨a, _, rfl⟩ := List.mem_map.1 hl
      rw [List.length_map, List.length_range'])
    (by rw [List.length_map, List.length_range]; exact hx) hr]
  rw [List.getElem?_map, List.getElem?_range hx]
  simp only [Option.map_some', Option.some_bind]
  rw [List.getElem?_map, List.getElem?_range' 0 2 hr]
  simp

/-- C1: for every in-range coordinate the compressed view returns exactly
the 4-bit id of the tile's biome, and `from_id` of that id recovers the
biome — the 2-per-byte nibble packing round-trips. -/
theorem compressed_biome_roundtrip (tiles : Nat → Nat → Tile) (x y : Nat)
    (hx : x < WORLD_SIZE) (hy : y < WORLD_SIZE) :
    (from_world_map tiles).get_biome? x y = some (tiles x y).biome.to_id ∧
    ((from_world_map tiles).get_biome? x y).map BiomeType.from_id =
      some (tiles x y).biome := by
  have hx' : x < 1000 := hx
  have hy' : y < 1000 := hy
  have hmain : (from_world_map tiles).get_biome? x y = some (tiles x y).biome.to_id := by
    simp only [CompressedWorldData.get_biome?]
    rw [if_neg (by rw [biomes_length tiles]; simp only [WORLD_SIZE]; omega)]
    have hbyte : (x * WORLD_SIZE + y) / 2 = x * ((WORLD_SIZE + 1) / 2) + y / 2 := by
      simp only [WORLD_SIZE]; omega
    rw [hbyte, biomes_getElem tiles x (y / 2) hx (by simp only [WORLD_SIZE]; omega)]
    rw [Option.map_some']
    rcases Nat.even_or_odd y with he | ho
    · have hy0 : y % 2 = 0 := Nat.even_iff.1 he
      rw [if_neg (by simp only [WORLD_SIZE]; omega)]
      have h2y : 2 * (y / 2) = y := by omega
      rw [h2y]
      simp only [packByte]
      rw [if_pos (by simp only [WORLD_SIZE] at *; omega)]
      rw [nibble_lo]
    · have hy1 : y % 2 = 1 := Nat.odd_iff.1 ho
      rw [if_pos (by simp only [WORLD_SIZE]; omega)]
      simp only [packByte]
      have h2y : 2 * (y / 2) + 1 = y := by omega
      rw [h2y, if_pos hy]
      rw [nibble_hi]
  exact ⟨hmain, by rw [hmain, Option.map_some', from_id_to_id]⟩

theorem compressed_biome_roundtrip_witness :
    (from_world_map oceanTiles).get_biome? 3 5 = some (oceanTiles 3 5).biome.to_id ∧
    ((from_world_map oceanTiles).get_biome? 3 5).map BiomeType.from_id =
      some (oceanTiles 3 5).biome :=
  compressed_biome_roundtrip oceanTiles 3 5 (by decide) (by decide)

/-! ## Sparse sample lemmas -/

lemma samples_length (field : Tile → Rat) (tiles : Nat → Nat → Tile) :
    (sampleGrid field tiles).length = ((WORLD_SIZE + 7) / 8) * ((WORLD_SIZE + 7) / 8) := by
  unfold sampleGrid
  rw [flatMap_length_uniform _ ((WORLD_SIZE + 7) / 8) _
    (fun a _ => by rw [List.length_map, List.length_range'])]
  rw [List.length_range']

lemma samples_getElem (field : Tile → Rat) (tiles : Nat → Nat → Tile) (q r : Nat)
    (hq : q < (WORLD_SIZE + 7) / 8) (hr : r < (WORLD_SIZE + 7) / 8) :
    (sampleGrid field tiles)[q * ((WORLD_SIZE + 7) / 8) + r]? =
      some (field (tiles (8 * q) (8 * r))) := by
  unfold sampleGrid
  rw [List.flatMap_def]
  rw [flatten_getElem_uniform ((WORLD_SIZE + 7) / 8) _ q r
    (fun l hl => by
      obtain ⟨a, _, rfl⟩ := List.mem_map.1 hl
      rw [List.length_map, List.length_range'])
    (by rw [List.length_map, List.length_range']; exact hq) hr]
  rw [List.getElem?_map, List.getElem?_range' 0 8 hq]
  simp only [Option.map_some', Option.some_bind]
  rw [List.getElem?_map, List.getElem?_range' 0 8 hr]
  simp

/-- What `get_elevation` actually computes at `(8, 0)`: sample index
`min(8/8, len-1) · min(0/8, len-1) = 1 · 0 = 0`, i.e. the sample of tile
`(0,0)` — not the sample of strided position `(1, 0)` (tile `(8,0)`). -/
lemma get_elevation_at_8_0 (tiles : Nat → Nat → Tile) :
    (from_world_map tiles).get_elevation 8 0 = (tiles 0 0).elevation := by
  have hres : (from_world_map tiles).sample_resolution = 8 := rfl
  have hsam : (from_world_map tiles).elevation_samples =
    sampleGrid (fun t => t.elevation) tiles := rfl
  simp only [CompressedWorldData.get_elevation, hres, hsam]
  rw [show (0 : Nat) / 8 = 0 from rfl, Nat.zero_min, Nat.mul_zero]
  have h := samples_getElem (fun t => t.elevation) tiles 0 0 (by decide) (by decide)
  simp only [Nat.zero_mul, Nat.add_zero, Nat.mul_zero] at h
  rw [h]
  rfl

/-- C6 (code bug): on a world whose only nonzero elevation is at the
sampled tile `(8,0)`, `get_elevation(8,0)` returns `0` (the sample of tile
`(0,0)`), while the sample recorded for strided grid position
`(8/8, 0/8) = (1,0)` is `1`: the lookup multiplies the two strided indices
instead of forming the row-major index. -/
theorem get_elevation_bug_eval :
    (from_world_map tilesC6).get_elevation 8 0 = 0 ∧ (tilesC6 8 0).elevation = 1 := by
  constructor
  · rw [get_elevation_at_8_0]
    simp [tilesC6]
  · simp [tilesC6]

/-! ## Out-of-range behaviour -/

lemma get_biome?_total (d : CompressedWorldData) (x y : Nat) :
    ∃ v, d.get_biome? x y = some v := by
  simp only [CompressedWorldData.get_biome?]
  by_cases h : d.biomes.length ≤ (x * WORLD_SIZE + y) / 2
  · rw [if_pos h]
    exact ⟨0, rfl⟩
  · rw [if_neg h]
    rw [List.getElem?_eq_getElem (by omega)]
    exact ⟨_, rfl⟩

lemma get_biome?_out_of_range (tiles : Nat → Nat → Tile) :
    (from_world_map tiles).get_biome? WORLD_SIZE 0 = some 0 := by
  simp only [CompressedWorldData.get_biome?]
  rw [if_pos (by rw [biomes_length tiles]; simp only [WORLD_SIZE]; omega)]

lemma from_id_unknown (id : Nat) (h : 14 ≤ id) : BiomeType.from_id id = BiomeType.Ocean := by
  obtain ⟨n, rfl⟩ : ∃ n, id = n + 14 := ⟨id - 14, by omega⟩
  rfl

/-- C8 (counterexample): the out-of-range access `get_biome(WORLD_SIZE, 0)`
on a compressed view of an all-ocean map does not fail: the early
byte-index guard silently returns biome id `0` (Ocean), even though this
coordinate is covered by neither documented fallback. -/
theorem compressed_out_of_range_silent :
    (from_world_map oceanTiles).get_biome? WORLD_SIZE 0 = some 0 ∧
    BiomeType.from_id 0 = BiomeType.Ocean :=
  ⟨get_biome?_out_of_range oceanTiles, rfl⟩

/-- C8 (amended): out-of-range indexing into the `WorldMap` grid fails
loudly (a bounds-checked `none`), an unknown packed biome id (`≥ 14`) falls
back to the first enumerated biome, and fully out-of-world chunk bounds
clamp to an empty range; but the `CompressedWorldData` accessors never
fail: `get_biome` always returns a value (id `0` when the byte index is
past the packed array). -/
theorem out_of_range_access_amended :
    (∀ (tiles : List (List Tile)) (x y : Nat), tiles.length ≤ x →
      tilesGet? tiles x y = none) ∧
    (∀ (tiles : List (List Tile)) (x y : Nat) (row : List Tile),
      tiles[x]? = some row → row.length ≤ y → tilesGet? tiles x y = none) ∧
    (∀ id : Nat, 14 ≤ id → BiomeType.from_id id = BiomeType.Ocean) ∧
    (∀ cx cy : Int,
      ((cx + 1) * (CHUNK_SIZE : Int) ≤ 0 ∨ (WORLD_SIZE : Int) ≤ cx * (CHUNK_SIZE : Int) ∨
        (cy + 1) * (CHUNK_SIZE : Int) ≤ 0 ∨ (WORLD_SIZE : Int) ≤ cy * (CHUNK_SIZE : Int)) →
      ((chunk_to_world_bounds cx cy).1 = (chunk_to_world_bounds cx cy).2.2.1 ∨
        (chunk_to_world_bounds cx cy).2.1 = (chunk_to_world_bounds cx cy).2.2.2)) ∧
    (∀ (d : CompressedWorldData) (x y : Nat), ∃ v, d.get_biome? x y = some v) := by
  refine ⟨?_, ?_, from_id_unknown, chunk_bounds_outside_empty, get_biome?_total⟩
  · intro tiles x y h
    unfold tilesGet?
    rw [List.getElem?_eq_none h]
    rfl
  · intro tiles x y row hrow hy
    unfold tilesGet?
    rw [hrow]
    simp [List.getElem?_eq_none hy]

theorem out_of_range_access_amended_witness :
    tilesGet? [] 5 0 = none ∧
    tilesGet? [[]] 0 3 = none ∧
    BiomeType.from_id 14 = BiomeType.Ocean ∧
    ((chunk_to_world_bounds (-3) 0).1 = (chunk_to_world_bounds (-3) 0).2.2.1 ∨
      (chunk_to_world_bounds (-3) 0).2.1 = (chunk_to_world_bounds (-3) 0).2.2.2) ∧
    (∃ v, CompressedWorldData.get_biome? ⟨[], [], [], [], 8⟩ 0 0 = some v) :=
  ⟨out_of_range_access_amended.1 [] 5 0 (by decide),
   out_of_range_access_amended.2.1 [[]] 0 3 [] rfl (by decide),
   out_of_range_access_amended.2.2.1 14 (by decide),
   out_of_range_access_amended.2.2.2.1 (-3) 0 (by decide),
   out_of_range_access_amended.2.2.2.2 ⟨[], [], [], [], 8⟩ 0 0⟩

/-! ## Parallel-merge determinism -/

lemma chunkTiles_tile_eq (en tn mn : Rat → Rat → Rat) (seed idx : Nat) :
    ∀ p ∈ chunkTiles en tn mn seed idx, p.2.2 = genTile en tn mn seed p.1 p.2.1 := by
  intro p hp
  unfold chunkTiles at hp
  simp only [List.mem_flatMap, List.mem_map] at hp
  obtain ⟨a, _, b, _, rfl⟩ := hp
  rfl

lemma chunkTiles_covers (en tn mn : Rat → Rat → Rat) (seed x y : Nat)
    (hx : x < WORLD_SIZE) (hy : y < WORLD_SIZE) :
    (x, y, genTile en tn mn seed x y) ∈
      chunkTiles en tn mn seed ((y / PAR_CHUNK) * chunks_per_side + x / PAR_CHUNK) := by
  have hx' : x < 1000 := hx
  have hy' : y < 1000 := hy
  unfold chunkTiles
  simp only [List.mem_flatMap, List.mem_map]
  refine ⟨x, ?_, y, ?_, rfl⟩
  · rw [List.mem_range']
    simp only [chunks_per_side, PAR_CHUNK, WORLD_SIZE]
    refine ⟨x - ((y / 64 * ((1000 + 64 - 1) / 64) + x / 64) % ((1000 + 64 - 1) / 64)) * 64,
      ?_, ?_⟩ <;> omega
  · rw [List.mem_range']
    simp only [chunks_per_side, PAR_CHUNK, WORLD_SIZE]
    refine ⟨y - ((y / 64 * ((1000 + 64 - 1) / 64) + x / 64) / ((1000 + 64 - 1) / 64)) * 64,
      ?_, ?_⟩ <;> omega

lemma foldl_gridWrite_eq (en tn mn : Rat → Rat → Rat) (seed : Nat)
    (l : List (Nat × Nat × Tile))
    (hl : ∀ p ∈ l, p.2.2 = genTile en tn mn seed p.1 p.2.1) (x y : Nat) :
    ∀ g : Nat → Nat → Tile,
      ((∃ t, (x, y, t) ∈ l) ∨ g x y = genTile en tn mn seed x y) →
      (l.foldl gridWrite g) x y = genTile en tn mn seed x y := by
  induction l with
  | nil =>
    intro g h
    rcases h with ⟨t, ht⟩ | h
    · exact absurd ht (List.not_mem_nil _)
    · simpa using h
  | cons p l' ih =>
    intro g h
    rw [List.foldl_cons]
    apply ih (fun q hq => hl q (List.mem_cons_of_mem p hq))
    rcases h with ⟨t, ht⟩ | hg
    · rcases List.mem_cons.1 ht with heq | hmem
      · subst heq
        right
        unfold gridWrite
        rw [if_pos ⟨rfl, rfl⟩]
        exact hl _ (List.mem_cons_self _ _)
      · exact Or.inl ⟨t, hmem⟩
    · right
      unfold gridWrite
      by_cases hxy : x = p.1 ∧ y = p.2.1
      · rw [if_pos hxy]
        have hp := hl p (List.mem_cons_self p l')
        rw [hp, hxy.1, hxy.2]
      · rw [if_neg hxy]
        exact hg

lemma assembleWorld_eq (en tn mn : Rat → Rat → Rat) (seed : Nat) (order : List Nat)
    (x y : Nat)
    (hcov : ∃ idx ∈ order,
      (x, y, genTile en tn mn seed x y) ∈ chunkTiles en tn mn seed idx) :
    assembleWorld en tn mn seed order x y = genTile en tn mn seed x y := by
  unfold assembleWorld
  suffices h : ∀ g : Nat → Nat → Tile,
      ((∃ idx ∈ order,
          (x, y, genTile en tn mn seed x y) ∈ chunkTiles en tn mn seed idx) ∨
        g x y = genTile en tn mn seed x y) →
      (order.foldl (fun g idx => (chunkTiles en tn mn seed idx).foldl gridWrite g) g) x y =
        genTile en tn mn seed x y by
    exact h _ (Or.inl hcov)
  clear hcov
  induction order with
  | nil =>
    intro g h
    rcases h with ⟨idx, hin, _⟩ | h
    · exact absurd hin (List.not_mem_nil _)
    · simpa using h
  | cons i rest ih =>
    intro g h
    rw [List.foldl_cons]
    apply ih
    rcases h with ⟨idx, hin, hmem⟩ | hg
    · rcases List.mem_cons.1 hin with heq | hrest
      · subst heq
        right
        exact foldl_gridWrite_eq en tn mn seed _ (chunkTiles_tile_eq en tn mn seed idx)
          x y g (Or.inl ⟨_, hmem⟩)
      · exact Or.inl ⟨idx, hrest, hmem⟩
    · right
      exact foldl_gridWrite_eq en tn mn seed _ (chunkTiles_tile_eq en tn mn seed i)
        x y g (Or.inr hg)

/-- C3: bit-identical regeneration — for fixed noise fields and seed, the
assembled world grid is the same pure per-tile function at every in-range
coordinate no matter in which order the parallel sub-blocks are merged: any
two worker schedules (permutations of the sub-block list) produce equal
grids.  Generating twice with the same seed is the special case of equal
schedules. -/
theorem generation_deterministic (en tn mn : Rat → Rat → Rat) (seed : Nat)
    (o1 o2 : List Nat) (h1 : o1.Perm (List.range total_chunks))
    (h2 : o2.Perm (List.range total_chunks)) (x y : Nat)
    (hx : x < WORLD_SIZE) (hy : y < WORLD_SIZE) :
    assembleWorld en tn mn seed o1 x y = assembleWorld en tn mn seed o2 x y := by
  have hx' : x < 1000 := hx
  have hy' : y < 1000 := hy
  have hidx : (y / PAR_CHUNK) * chunks_per_side + x / PAR_CHUNK ∈
      List.range total_chunks := by
    rw [List.mem_range]
    simp only [total_chunks, chunks_per_side, PAR_CHUNK, WORLD_SIZE]
    omega
  have hcov := chunkTiles_covers en tn mn seed x y hx hy
  rw [assembleWorld_eq en tn mn seed o1 x y ⟨_, h1.mem_iff.2 hidx, hcov⟩,
      assembleWorld_eq en tn mn seed o2 x y ⟨_, h2.mem_iff.2 hidx, hcov⟩]

theorem generation_deterministic_witness :
    assembleWorld (fun _ _ => 0) (fun _ _ => 0) (fun _ _ => 0) 0
        (List.range total_chunks) 0 0 =
      assembleWorld (fun _ _ => 0) (fun _ _ => 0) (fun _ _ => 0) 0
        ((List.range total_chunks).reverse) 0 0 :=
  generation_deterministic (fun _ _ => 0) (fun _ _ => 0) (fun _ _ => 0) 0
    (List.range total_chunks) ((List.range total_chunks).reverse)
    (List.Perm.refl _) (List.reverse_perm _) 0 0 (by decide) (by decide)

end CreatureSim
